import Mathlib

/-!
Verification of the A7 Python SDK client layer (Deutsche-Boerse/a7) against its
natural-language specification.  The snapshot of the repository at hand contains
the README, the contributing guide and the RDI use-case notebook; the SDK modules
themselves (`sdk/a7/*.py`) are not in the snapshot, so the transport, error mapper
and resource modules below are modelled from the specification and the README /
notebook evidence, as indicated in each doc comment.
-/

namespace A7

/-- Modelled from the spec: `ClientConfiguration` (the SDK's `config.py` is not part
of this snapshot) — token, base URL, SSL-verification flag and per-call timeout,
immutable after facade construction. -/
structure ClientConfiguration where
  token : String
  base_url : String
  verify_ssl : Bool
  timeout : Nat

/-- Modelled from the spec: the typed error taxonomy of the SDK's `errors.py` (not
part of this snapshot).  The README's error-handling example exports the first five;
the spec's §7 taxonomy additionally lists `TimeoutError` as a distinct kind. -/
inductive A7Error where
  | authenticationError : A7Error
  | notFoundError : A7Error
  | validationError : String → A7Error
  | rateLimitError : A7Error
  | serverError : Nat → String → A7Error
  | timeoutError : A7Error
deriving DecidableEq

/-- Discriminator: is this error the `ServerError` kind? -/
def A7Error.isServerError : A7Error → Bool
  | .serverError _ _ => true
  | _ => false

/-- Decoded JSON-like response payload (object, list, string or number), mirroring
the remote JSON shape; the client never reinterprets it. -/
inductive Payload where
  | str : String → Payload
  | num : Int → Payload
  | arr : List Payload → Payload
  | obj : List (String × Payload) → Payload

/-- A raw HTTP response: a status code, a decoded body, and the textual body /
server message (used as validation message or body snippet when mapping errors). -/
structure HttpResponse (β : Type) where
  status : Nat
  body : β
  message : String

/-- Outcome of a wire interaction: either a response arrived, or the configured
per-call timeout elapsed with no response. -/
inductive HttpOutcome (β : Type) where
  | response : HttpResponse β → HttpOutcome β
  | timedOut : HttpOutcome β

/-- A concrete HTTP request as put on the wire: full URL and headers. -/
structure HttpRequest where
  url : String
  headers : List (String × String)

/-- Modelled from the spec: a Request Descriptor — method, path parameters in
substitution order, and query parameters (a `none` value means absent). -/
structure RequestDescriptor where
  method : String
  pathSegments : List String
  queryParams : List (String × Option String)

/-- Join path segments with the URL path separator, at character level. -/
def joinSegs : List (List Char) → List Char
  | [] => []
  | [s] => s
  | s :: s₂ :: rest => s ++ '/' :: joinSegs (s₂ :: rest)

/-- Split a character list on the URL path separator (auxiliary accumulator form). -/
def splitSegsAux : List Char → List Char → List (List Char)
  | [], acc => [acc.reverse]
  | c :: cs, acc =>
    if c = '/' then acc.reverse :: splitSegsAux cs []
    else splitSegsAux cs (c :: acc)

/-- Split a character list on the URL path separator. -/
def splitSegs (cs : List Char) : List (List Char) := splitSegsAux cs []

/-- Modelled from the spec: the request path, path parameters substituted in order
and joined by the path separator. -/
def renderPath (d : RequestDescriptor) : String :=
  String.mk (joinSegs (d.pathSegments.map String.toList))

/-- Parse a rendered path back into its segments (the test-side inverse used to
state the round-trip property). -/
def parsePath (s : String) : List String :=
  (splitSegs s.toList).map String.mk

/-- Modelled from the spec: render the query items, omitting every parameter whose
value is `none` (absent parameters are omitted, not sent as empty strings). -/
def renderQueryItems (qs : List (String × Option String)) : List String :=
  qs.filterMap fun kv => kv.2.map fun v => kv.1 ++ "=" ++ v

/-- Modelled from the spec: the query string — empty when no parameter has a value,
else a leading question mark and ampersand-separated items. -/
def renderQuery (qs : List (String × Option String)) : String :=
  match renderQueryItems qs with
  | [] => ""
  | item :: rest => "?" ++ String.intercalate "&" (item :: rest)

/-- The API version path segment supplied by the client itself (the notebook issues
requests against `.../api/v1/...` while the documented base URL carries no version). -/
def apiVersion : String := "v1/"

/-- The documented default production base URL (no version segment in it). -/
def defaultBaseUrl : String := "https://a7.deutsche-boerse.com/api/"

/-- Modelled from the spec: client construction with the documented defaults. -/
def mkClient (token : String) : ClientConfiguration :=
  { token := token, base_url := defaultBaseUrl, verify_ssl := true, timeout := 30 }

/-- Modelled from the spec: build the wire-level request — full URL is base URL plus
version segment plus rendered path plus query string; the bearer-token header is
attached unconditionally. -/
def buildRequest (cfg : ClientConfiguration) (d : RequestDescriptor) : HttpRequest :=
  { url := cfg.base_url ++ apiVersion ++ renderPath d ++ renderQuery d.queryParams
  , headers := [("Authorization", "Bearer " ++ cfg.token)] }

/-- Modelled from the spec: the error mapper — 401/403 to `AuthenticationError`,
404 to `NotFoundError`, 400/422 to `ValidationError` carrying the server message,
429 to `RateLimitError`, 5xx to `ServerError` carrying status and body snippet,
2xx to the decoded body passed through unchanged. -/
def mapResponse {β : Type} (r : HttpResponse β) : Except A7Error β :=
  if r.status = 401 ∨ r.status = 403 then .error .authenticationError
  else if r.status = 404 then .error .notFoundError
  else if r.status = 400 ∨ r.status = 422 then .error (.validationError r.message)
  else if r.status = 429 then .error .rateLimitError
  else if 500 ≤ r.status ∧ r.status ≤ 599 then .error (.serverError r.status r.message)
  else if 200 ≤ r.status ∧ r.status ≤ 299 then .ok r.body
  else .error (.serverError r.status r.message)

/-- Modelled from the spec: the Transport's `send` — issue the request built from
the descriptor over the wire; a timeout becomes `TimeoutError`, a response goes
through the error mapper; every error is returned to the caller, never handled
locally. -/
def send {β : Type} (cfg : ClientConfiguration) (wire : HttpRequest → HttpOutcome β)
    (d : RequestDescriptor) : Except A7Error β :=
  match wire (buildRequest cfg d) with
  | .timedOut => .error .timeoutError
  | .response r => mapResponse r

/-- A wire that always delivers the given response (a simulated server). -/
def constWire {β : Type} (r : HttpResponse β) : HttpRequest → HttpOutcome β :=
  fun _ => .response r

/-- A wire on which no response ever arrives within the configured window. -/
def timeoutWire {β : Type} : HttpRequest → HttpOutcome β :=
  fun _ => .timedOut

/-- Modelled from the spec: the documented enumerated set for the RDI `mode`
argument (reference, keys, detailed — per the notebook's description of the RDI
mode levels). -/
def rdiModes : List String := ["reference", "keys", "detailed"]

/-- Modelled from the spec: the documented enumerated set for the dataset export
`format` argument (JSON and CSV export formats). -/
def datasetFormats : List String := ["json", "csv"]

/-- Modelled from the spec: the one piece of input-side defensive logic shared by
every operation with an enumerated mode/format argument — check the given value
against the documented set; a value outside it raises a local `ValidationError`
before the transport is invoked.  The second component counts how many times the
transport was invoked. -/
def runWithValidatedMode {β : Type} (allowed : List String) (mode : Option String)
    (build : Option String → RequestDescriptor) (cfg : ClientConfiguration)
    (wire : HttpRequest → HttpOutcome β) : Except A7Error β × Nat :=
  match mode with
  | none => (send cfg wire (build none), 1)
  | some m =>
    if allowed.contains m then (send cfg wire (build (some m)), 1)
    else (.error (.validationError ("Invalid mode: " ++ m)), 0)

/-- Descriptor of `rdi.get_markets()` (README: list available T7 markets, path
`/rdi`). -/
def rdi_get_markets : RequestDescriptor :=
  { method := "GET", pathSegments := ["rdi"], queryParams := [] }

/-- Descriptor of `rdi.get_market_segments(market_id, ref_date, mode)` (notebook:
`rdi/{market}/{date}` with optional `mode` query parameter). -/
def rdi_get_market_segments (market_id : String) (ref_date : Nat)
    (mode : Option String) : RequestDescriptor :=
  { method := "GET"
  , pathSegments := ["rdi", market_id, Nat.repr ref_date]
  , queryParams := [("mode", mode)] }

/-- Descriptor of `rdi.get_security_details(market_id, ref_date, segment_id,
security_id)` — path parameters substituted in order market, date, segment,
security. -/
def rdi_get_security_details (market_id : String) (ref_date : Nat)
    (segment_id : Nat) (security_id : String) : RequestDescriptor :=
  { method := "GET"
  , pathSegments := ["rdi", market_id, Nat.repr ref_date, Nat.repr segment_id, security_id]
  , queryParams := [] }

/-- The `rdi.get_market_segments` operation as called on the client: mode validated
against the documented set, then dispatched through the transport. -/
def rdi_get_market_segments_call (cfg : ClientConfiguration)
    (wire : HttpRequest → HttpOutcome Payload) (market_id : String) (ref_date : Nat)
    (mode : Option String) : Except A7Error Payload × Nat :=
  runWithValidatedMode rdiModes mode (rdi_get_market_segments market_id ref_date) cfg wire

/-- Modelled from the spec: uniform default `mode` for the EOBI/MDP time-navigation
operations; per the v0.2.3 changelog the default is `reference` (changed from
`compact`). -/
def eobiMdpDefaultMode : String := "reference"

/-- Descriptor of `eobi.get_securities(market_id, date, market_segment_id)` —
hierarchy navigation, path parameters in order market, date, segment. -/
def eobi_get_securities (market_id : String) (date : Nat)
    (market_segment_id : Nat) : RequestDescriptor :=
  { method := "GET"
  , pathSegments := ["eobi", market_id, Nat.repr date, Nat.repr market_segment_id]
  , queryParams := [] }

/-- Descriptor of `eobi.get_transact_times(market_id, date, market_segment_id,
security_id, mode)`; an omitted mode falls back to the uniform default. -/
def eobi_get_transact_times (market_id : String) (date : Nat)
    (market_segment_id : Nat) (security_id : Nat) (mode : Option String) :
    RequestDescriptor :=
  { method := "GET"
  , pathSegments :=
      ["eobi", market_id, Nat.repr date, Nat.repr market_segment_id, Nat.repr security_id]
  , queryParams := [("mode", some (mode.getD eobiMdpDefaultMode))] }

/-- Descriptor of `eobi.get_applseq_nums(market_id, date, market_segment_id,
security_id, transact_time, mode)`; an omitted mode falls back to the uniform
default. -/
def eobi_get_applseq_nums (market_id : String) (date : Nat)
    (market_segment_id : Nat) (security_id : Nat) (transact_time : Nat)
    (mode : Option String) : RequestDescriptor :=
  { method := "GET"
  , pathSegments :=
      ["eobi", market_id, Nat.repr date, Nat.repr market_segment_id,
       Nat.repr security_id, Nat.repr transact_time]
  , queryParams := [("mode", some (mode.getD eobiMdpDefaultMode))] }

/-- Descriptor of `eobi.get_msg_seq_nums(market_id, date, market_segment_id,
security_id, transact_time, applseq_num, mode)`; an omitted mode falls back to the
uniform default. -/
def eobi_get_msg_seq_nums (market_id : String) (date : Nat)
    (market_segment_id : Nat) (security_id : Nat) (transact_time : Nat)
    (applseq_num : Nat) (mode : Option String) : RequestDescriptor :=
  { method := "GET"
  , pathSegments :=
      ["eobi", market_id, Nat.repr date, Nat.repr market_segment_id,
       Nat.repr security_id, Nat.repr transact_time, Nat.repr applseq_num]
  , queryParams := [("mode", some (mode.getD eobiMdpDefaultMode))] }

/-- Descriptor of `mdp.get_sending_times(exchange, date, asset, security_id, mode)`;
an omitted mode falls back to the same uniform default as the EOBI operations. -/
def mdp_get_sending_times (exchange : String) (date : Nat) (asset : String)
    (security_id : String) (mode : Option String) : RequestDescriptor :=
  { method := "GET"
  , pathSegments := ["mdp", exchange, Nat.repr date, asset, security_id]
  , queryParams := [("mode", some (mode.getD eobiMdpDefaultMode))] }

/-- Descriptor of `precalc.deactivate(owner, precalc)` — a side-effecting job
lifecycle operation. -/
def precalc_deactivate (owner : String) (precalc : String) : RequestDescriptor :=
  { method := "POST"
  , pathSegments := ["precalc", owner, precalc, "deactivate"]
  , queryParams := [] }

/-- Server-side state of one precalc job: whether it is currently active. -/
structure PrecalcServerState where
  active : Bool

/-- Modelled from the spec: the remote semantics of deactivation — the job ends up
inactive and the server answers with a success status in every case; deactivating
an already-inactive job is a no-op success. -/
def serverHandleDeactivate (st : PrecalcServerState) :
    PrecalcServerState × HttpResponse Payload :=
  ({ active := false }
  , { status := 200
    , body := Payload.obj [("active", Payload.str (if st.active then "deactivated" else "already_inactive"))]
    , message := "" })

/-- One `precalc.deactivate` call against the simulated server: the server handles
the request, the transport maps the response; returns the new server state and the
call's outcome. -/
def precalcDeactivateStep (cfg : ClientConfiguration) (owner : String)
    (precalc : String) (st : PrecalcServerState) :
    PrecalcServerState × Except A7Error Payload :=
  let sr := serverHandleDeactivate st
  (sr.1, send cfg (constWire sr.2) (precalc_deactivate owner precalc))

/-- The decimal digit characters produced by `Nat.digitChar` never include the
path separator. -/
theorem digitChar_ne_slash (n : Nat) : Nat.digitChar n ≠ '/' := by
  by_cases h : n < 16
  · interval_cases n <;> decide
  · have hne : ∀ m, m ≤ 15 → ¬ n = m := fun m hm => by omega
    unfold Nat.digitChar
    rw [if_neg (hne 0 (by norm_num)), if_neg (hne 1 (by norm_num)),
      if_neg (hne 2 (by norm_num)), if_neg (hne 3 (by norm_num)),
      if_neg (hne 4 (by norm_num)), if_neg (hne 5 (by norm_num)),
      if_neg (hne 6 (by norm_num)), if_neg (hne 7 (by norm_num)),
      if_neg (hne 8 (by norm_num)), if_neg (hne 9 (by norm_num)),
      if_neg (hne 10 (by norm_num)), if_neg (hne 11 (by norm_num)),
      if_neg (hne 12 (by norm_num)), if_neg (hne 13 (by norm_num)),
      if_neg (hne 14 (by norm_num)), if_neg (hne 15 (by norm_num))]
    decide

/-- Every character produced by `Nat.toDigitsCore` is a digit character or comes
from the seed list. -/
theorem mem_toDigitsCore (b : Nat) :
    ∀ (f n : Nat) (ds : List Char) (c : Char), c ∈ Nat.toDigitsCore b f n ds →
      (∃ m, c = Nat.digitChar m) ∨ c ∈ ds := by
  intro f
  induction f with
  | zero =>
    intro n ds c h
    simp only [Nat.toDigitsCore] at h
    exact Or.inr h
  | succ f ih =>
    intro n ds c h
    simp only [Nat.toDigitsCore] at h
    split at h
    · rcases List.mem_cons.mp h with hc | hc
      · exact Or.inl ⟨n % b, hc⟩
      · exact Or.inr hc
    · rcases ih _ _ _ h with hc | hc
      · exact Or.inl hc
      · rcases List.mem_cons.mp hc with hc' | hc'
        · exact Or.inl ⟨n % b, hc'⟩
        · exact Or.inr hc'

/-- The decimal rendering of a natural number never contains the path separator. -/
theorem slash_not_mem_repr (n : Nat) : '/' ∉ (Nat.repr n).toList := by
  intro h
  have h' : '/' ∈ Nat.toDigitsCore 10 (n + 1) n [] := h
  rcases mem_toDigitsCore 10 (n + 1) n [] '/' h' with ⟨m, hm⟩ | h2
  · exact digitChar_ne_slash m hm.symm
  · simp at h2

/-- Splitting a list that starts with a separator-free prefix walks past the
prefix, accumulating it reversed. -/
theorem splitSegsAux_append (s : List Char) :
    ∀ (rest acc : List Char), '/' ∉ s →
      splitSegsAux (s ++ rest) acc = splitSegsAux rest (s.reverse ++ acc) := by
  induction s with
  | nil =>
    intro rest acc _
    simp
  | cons c cs ih =>
    intro rest acc h
    have hc : ¬ c = '/' := fun hc => h (by simp [hc])
    have hcs : '/' ∉ cs := fun hm => h (List.mem_cons_of_mem _ hm)
    simp only [List.cons_append, splitSegsAux, if_neg hc]
    rw [show cs.append rest = cs ++ rest from rfl, ih rest (c :: acc) hcs]
    simp

/-- Splitting the separator-joined segments recovers the segments, whenever the
segment list is nonempty and no segment contains the separator. -/
theorem splitSegs_joinSegs :
    ∀ (segs : List (List Char)), segs ≠ [] → (∀ s ∈ segs, '/' ∉ s) →
      splitSegs (joinSegs segs) = segs := by
  intro segs
  induction segs with
  | nil =>
    intro h _
    exact absurd rfl h
  | cons s rest ih =>
    intro _ hns
    have hs : '/' ∉ s := hns s (List.mem_cons_self s rest)
    cases rest with
    | nil =>
      show splitSegsAux (joinSegs [s]) [] = [s]
      have h1 : splitSegsAux (s ++ []) [] = splitSegsAux [] (s.reverse ++ []) :=
        splitSegsAux_append s [] [] hs
      simp only [List.append_nil] at h1
      simp only [joinSegs, h1, splitSegsAux, List.reverse_reverse]
    | cons s₂ rest₂ =>
      show splitSegsAux (joinSegs (s :: s₂ :: rest₂)) [] = s :: s₂ :: rest₂
      have h1 : splitSegsAux (s ++ '/' :: joinSegs (s₂ :: rest₂)) [] =
          splitSegsAux ('/' :: joinSegs (s₂ :: rest₂)) (s.reverse ++ []) :=
        splitSegsAux_append s ('/' :: joinSegs (s₂ :: rest₂)) [] hs
      have h2 : splitSegs (joinSegs (s₂ :: rest₂)) = s₂ :: rest₂ :=
        ih (by simp) (fun t ht => hns t (List.mem_cons_of_mem _ ht))
      simp only [joinSegs, h1, splitSegsAux, if_pos rfl, List.append_nil,
        List.reverse_reverse]
      exact congrArg (s :: ·) h2

/-- Parsing the rendered path of a descriptor recovers its path parameters, given
the pre-escaping constraint that no parameter contains the path separator. -/
theorem parsePath_renderPath (d : RequestDescriptor) (hne : d.pathSegments ≠ [])
    (hok : ∀ s ∈ d.pathSegments, '/' ∉ s.toList) :
    parsePath (renderPath d) = d.pathSegments := by
  unfold parsePath renderPath
  have hmapne : d.pathSegments.map String.toList ≠ [] := by
    simpa using hne
  have hmapok : ∀ cs ∈ d.pathSegments.map String.toList, '/' ∉ cs := by
    intro cs hcs
    rcases List.mem_map.mp hcs with ⟨s, hsmem, hseq⟩
    exact hseq ▸ hok s hsmem
  have hsplit : splitSegs (String.mk (joinSegs (d.pathSegments.map String.toList))).toList
      = d.pathSegments.map String.toList :=
    splitSegs_joinSegs _ hmapne hmapok
  rw [hsplit, List.map_map]
  have hid : (String.mk ∘ String.toList) = id := funext fun _ => rfl
  rw [hid, List.map_id]

/-- Claim C1: for every resource-module operation (any descriptor, any
configuration), a response with status 401 or 403 makes the call return
`AuthenticationError`; 404 returns `NotFoundError`; 400 or 422 returns
`ValidationError` carrying the server-supplied message; 429 returns
`RateLimitError`; any 5xx returns `ServerError` carrying the status and body
snippet — each condition is raised to the caller by the transport, never handled
locally. -/
theorem C1_status_error_mapping (cfg : ClientConfiguration) (d : RequestDescriptor)
    (r : HttpResponse Payload) :
    ((r.status = 401 ∨ r.status = 403) →
      send cfg (constWire r) d = .error .authenticationError) ∧
    (r.status = 404 → send cfg (constWire r) d = .error .notFoundError) ∧
    ((r.status = 400 ∨ r.status = 422) →
      send cfg (constWire r) d = .error (.validationError r.message)) ∧
    (r.status = 429 → send cfg (constWire r) d = .error .rateLimitError) ∧
    (500 ≤ r.status → r.status ≤ 599 →
      send cfg (constWire r) d = .error (.serverError r.status r.message)) := by
  have hsend : send cfg (constWire r) d = mapResponse r := rfl
  refine ⟨fun h => ?_, fun h => ?_, fun h => ?_, fun h => ?_, fun h₁ h₂ => ?_⟩ <;>
    rw [hsend] <;> unfold mapResponse <;> split_ifs <;>
    first
      | rfl
      | (exfalso; omega)

/-- Witness for C1 at concrete inputs, one per status class. -/
theorem C1_status_error_mapping_witness :
    send (mkClient "tok")
        (constWire { status := 401, body := Payload.obj [], message := "m" })
        rdi_get_markets = .error .authenticationError ∧
    send (mkClient "tok")
        (constWire { status := 404, body := Payload.obj [], message := "m" })
        rdi_get_markets = .error .notFoundError ∧
    send (mkClient "tok")
        (constWire { status := 422, body := Payload.obj [], message := "m" })
        rdi_get_markets = .error (.validationError "m") ∧
    send (mkClient "tok")
        (constWire { status := 429, body := Payload.obj [], message := "m" })
        rdi_get_markets = .error .rateLimitError ∧
    send (mkClient "tok")
        (constWire { status := 500, body := Payload.obj [], message := "m" })
        rdi_get_markets = .error (.serverError 500 "m") :=
  ⟨(C1_status_error_mapping _ _ _).1 (Or.inl rfl),
   (C1_status_error_mapping _ _ _).2.1 rfl,
   (C1_status_error_mapping _ _ _).2.2.1 (Or.inr rfl),
   (C1_status_error_mapping _ _ _).2.2.2.1 rfl,
   (C1_status_error_mapping _ _ _).2.2.2.2 (by decide) (by decide)⟩

/-- Claim C2: for every operation with an enumerated mode/format argument, a value
outside the documented set makes the call return a local `ValidationError` with the
transport invoked zero times. -/
theorem C2_invalid_mode_no_network {β : Type} (allowed : List String) (m : String)
    (build : Option String → RequestDescriptor) (cfg : ClientConfiguration)
    (wire : HttpRequest → HttpOutcome β) (h : allowed.contains m = false) :
    (∃ msg, (runWithValidatedMode allowed (some m) build cfg wire).1 =
        .error (.validationError msg)) ∧
    (runWithValidatedMode allowed (some m) build cfg wire).2 = 0 := by
  simp only [runWithValidatedMode, h]
  exact ⟨⟨_, rfl⟩, rfl⟩

/-- Witness for C2: mode `bogus` is outside the RDI enumerated set, so
`rdi.get_market_segments` signals `ValidationError` without touching the wire. -/
theorem C2_invalid_mode_no_network_witness :
    (∃ msg, (runWithValidatedMode rdiModes (some "bogus")
        (rdi_get_market_segments "XEUR" 20250101) (mkClient "tok")
        (constWire { status := 200, body := Payload.obj [], message := "" })).1 =
        .error (.validationError msg)) ∧
    (runWithValidatedMode rdiModes (some "bogus")
        (rdi_get_market_segments "XEUR" 20250101) (mkClient "tok")
        (constWire { status := 200, body := Payload.obj [], message := "" })).2 = 0 :=
  C2_invalid_mode_no_network rdiModes "bogus"
    (rdi_get_market_segments "XEUR" 20250101) (mkClient "tok")
    (constWire { status := 200, body := Payload.obj [], message := "" }) (by decide)

/-- Claim C3: parsing the rendered path of a Request Descriptor recovers the
original path parameters (no double-encoding, no loss) under the pre-escaping
constraint; query parameters with absent value are omitted entirely; concretely,
`get_market_segments("XEUR", 20250101)` renders path `rdi/XEUR/20250101` with an
empty query string, and query `?mode=detailed` when mode `detailed` is given. -/
theorem C3_descriptor_round_trip :
    (∀ d : RequestDescriptor, d.pathSegments ≠ [] →
      (∀ s ∈ d.pathSegments, '/' ∉ s.toList) →
      parsePath (renderPath d) = d.pathSegments) ∧
    (∀ (market : String) (ref_date : Nat) (mode : Option String),
      '/' ∉ market.toList →
      parsePath (renderPath (rdi_get_market_segments market ref_date mode)) =
        ["rdi", market, Nat.repr ref_date]) ∧
    (∀ (market : String) (ref_date : Nat),
      renderQuery (rdi_get_market_segments market ref_date none).queryParams = "") ∧
    renderPath (rdi_get_market_segments "XEUR" 20250101 none) = "rdi/XEUR/20250101" ∧
    renderQuery (rdi_get_market_segments "XEUR" 20250101 (some "detailed")).queryParams =
      "?mode=detailed" := by
  refine ⟨parsePath_renderPath, ?_, fun _ _ => rfl, rfl, rfl⟩
  intro market ref_date mode hm
  refine parsePath_renderPath _ (by simp [rdi_get_market_segments]) ?_
  intro s hs
  simp only [rdi_get_market_segments, List.mem_cons, List.not_mem_nil, or_false] at hs
  rcases hs with h1 | h2 | h3
  · rw [h1]; decide
  · rw [h2]; exact hm
  · rw [h3]; exact slash_not_mem_repr ref_date

/-- Witness for C3 at the concrete example arguments. -/
theorem C3_descriptor_round_trip_witness :
    parsePath (renderPath (rdi_get_market_segments "XEUR" 20250101 none)) =
      ["rdi", "XEUR", Nat.repr 20250101] :=
  C3_descriptor_round_trip.2.1 "XEUR" 20250101 none (by decide)

/-- Claim C4: every request put on the wire carries the header
`Authorization: Bearer <token>` built from the configured token, unconditionally,
for every descriptor. -/
theorem C4_bearer_header_always (cfg : ClientConfiguration) (d : RequestDescriptor) :
    ("Authorization", "Bearer " ++ cfg.token) ∈ (buildRequest cfg d).headers := by
  simp [buildRequest]

/-- Claim C5: on any 2xx response the decoded body is returned to the caller
unchanged (parametrically, for any payload type); concretely, `rdi.get_markets()`
against a transport returning the mapping with key `MarketIDs` and values `XETR`,
`XEUR` returns exactly that mapping. -/
theorem C5_payload_passthrough :
    (∀ (β : Type) (cfg : ClientConfiguration) (d : RequestDescriptor)
      (r : HttpResponse β), 200 ≤ r.status → r.status ≤ 299 →
      send cfg (constWire r) d = .ok r.body) ∧
    (∀ (cfg : ClientConfiguration) (msg : String),
      send cfg (constWire
        { status := 200
        , body := Payload.obj
            [("MarketIDs", Payload.arr [Payload.str "XETR", Payload.str "XEUR"])]
        , message := msg }) rdi_get_markets =
      .ok (Payload.obj
        [("MarketIDs", Payload.arr [Payload.str "XETR", Payload.str "XEUR"])])) := by
  constructor
  · intro β cfg d r h₁ h₂
    have hsend : send cfg (constWire r) d = mapResponse r := rfl
    rw [hsend]
    unfold mapResponse
    split_ifs <;>
      first
        | rfl
        | (exfalso; omega)
  · intro cfg msg
    rfl

/-- Witness for C5 at a concrete 2xx response. -/
theorem C5_payload_passthrough_witness :
    send (mkClient "tok")
        (constWire { status := 200, body := Payload.num 7, message := "" })
        rdi_get_markets = .ok (Payload.num 7) :=
  C5_payload_passthrough.1 Payload (mkClient "tok") rdi_get_markets
    { status := 200, body := Payload.num 7, message := "" } (by decide) (by decide)

/-- Claim C6: when no response arrives within the configured window the call
returns `TimeoutError`, which is a distinct error kind, not the `ServerError`
kind. -/
theorem C6_timeout_error (cfg : ClientConfiguration) (d : RequestDescriptor) :
    send cfg (timeoutWire : HttpRequest → HttpOutcome Payload) d =
      .error .timeoutError ∧
    A7Error.timeoutError.isServerError = false :=
  ⟨rfl, rfl⟩

/-- Claim C7: two successive `precalc.deactivate(owner, job)` calls — the second
against an already-inactive job — both succeed without raising. -/
theorem C7_deactivate_idempotent (cfg : ClientConfiguration)
    (owner precalc : String) (st : PrecalcServerState) :
    (∃ v, (precalcDeactivateStep cfg owner precalc st).2 = .ok v) ∧
    (precalcDeactivateStep cfg owner precalc st).1.active = false ∧
    (∃ v, (precalcDeactivateStep cfg owner precalc
        ((precalcDeactivateStep cfg owner precalc st).1)).2 = .ok v) :=
  ⟨⟨_, rfl⟩, rfl, ⟨_, rfl⟩⟩

/-- Claim C8: request paths substitute the path parameters in the fixed order
market, date, segment, security, consistently across modules; concretely,
`rdi.get_security_details("XEUR", 20200106, 688, "4611674")` targets the URL
ending `/rdi/XEUR/20200106/688/4611674` and returns the response body verbatim. -/
theorem C8_path_order (market : String) (ref_date segment_id : Nat)
    (security_id t : String) (cfg : ClientConfiguration) (body : Payload)
    (msg : String) :
    (rdi_get_security_details market ref_date segment_id security_id).pathSegments =
      ["rdi", market, Nat.repr ref_date, Nat.repr segment_id, security_id] ∧
    (eobi_get_securities market ref_date segment_id).pathSegments =
      ["eobi", market, Nat.repr ref_date, Nat.repr segment_id] ∧
    (buildRequest (mkClient t)
        (rdi_get_security_details "XEUR" 20200106 688 "4611674")).url =
      "https://a7.deutsche-boerse.com/api/v1/rdi/XEUR/20200106/688/4611674" ∧
    send cfg (constWire { status := 200, body := body, message := msg })
      (rdi_get_security_details "XEUR" 20200106 688 "4611674") = .ok body :=
  ⟨rfl, rfl, rfl, rfl⟩

/-- Claim C9: the four EOBI/MDP time-navigation operations use one uniform default
`mode` when the caller omits the argument, and that enumerated default is
`reference`. -/
theorem C9_default_mode_uniform (market exchange asset security : String)
    (date seg sec tt asn : Nat) :
    (eobi_get_transact_times market date seg sec none).queryParams =
      [("mode", some eobiMdpDefaultMode)] ∧
    (eobi_get_applseq_nums market date seg sec tt none).queryParams =
      [("mode", some eobiMdpDefaultMode)] ∧
    (eobi_get_msg_seq_nums market date seg sec tt asn none).queryParams =
      [("mode", some eobiMdpDefaultMode)] ∧
    (mdp_get_sending_times exchange date asset security none).queryParams =
      [("mode", some eobiMdpDefaultMode)] ∧
    eobiMdpDefaultMode = "reference" :=
  ⟨rfl, rfl, rfl, rfl, rfl⟩

/-- Claim C10: the client itself supplies the API version segment — the full wire
URL is the configured base URL plus the version segment plus the resource path,
the default base URL carries no version, and `rdi.get_markets` under the default
configuration targets the notebook's URL `https://a7.deutsche-boerse.com/api/v1/rdi`. -/
theorem C10_versioned_url (cfg : ClientConfiguration) (d : RequestDescriptor)
    (t : String) :
    (buildRequest cfg d).url =
      cfg.base_url ++ apiVersion ++ renderPath d ++ renderQuery d.queryParams ∧
    defaultBaseUrl = "https://a7.deutsche-boerse.com/api/" ∧
    (mkClient t).base_url = defaultBaseUrl ∧
    (buildRequest (mkClient t) rdi_get_markets).url =
      "https://a7.deutsche-boerse.com/api/v1/rdi" :=
  ⟨rfl, rfl, rfl, rfl⟩

end A7
